import Mathlib

set_option linter.unusedVariables false

/-!
Verification of the customer-insights core of the stripe-demo repository.

The definitions below are a shallow embedding of
`src/stripe-customer-insights-app/src/utils/calculations.ts` and
`src/stripe-customer-insights-app/src/api/stripeClient.ts`.
JavaScript numbers are modelled as exact rationals (`ℚ`) where the source
divides, and as integers (`ℤ`/`ℕ`) where the source only ever holds integer
minor units or counts.  Timestamps are integers (epoch seconds for Stripe
`created` fields, epoch milliseconds for `Date.now()` values).  ISO date
strings produced by `new Date(t * 1000).toISOString()` are represented by the
underlying millisecond timestamp `t * 1000` (the rendering is injective and
display-only).
-/

namespace StripeInsights

/-- One `Stripe.Charge` as used by `calculations.ts`: amount and
`amount_refunded` in integer minor units, `status` a string
(`succeeded`/`failed`/other), `disputed` a flag, `invoice` a nullable
reference (the recurring-billing link), `created` an epoch-seconds timestamp,
and the nullable `payment_method_details.type`. -/
structure Charge where
  id : String
  amount : Int
  currency : String
  status : String
  amount_refunded : Int
  disputed : Bool
  invoice : Option String
  created : Int
  payment_method_type : Option String
deriving Repr, DecidableEq

/-- `Stripe.Customer`: the code only reads `id` and `created` (guarded by a
JavaScript truthiness test, so we keep it optional). -/
structure Customer where
  id : String
  created : Option Int
deriving Repr, DecidableEq

/-- `Stripe.PaymentIntent`: passed through `analyzePaymentPattern` and
`assessRisk` but never read by either. -/
structure PaymentIntent where
  id : String
deriving Repr, DecidableEq

/-- `price.recurring` of a subscription item. -/
structure Recurring where
  interval : String
  interval_count : Int
deriving Repr, DecidableEq

/-- `item.price` of a subscription item (`unit_amount` in minor units). -/
structure Price where
  unit_amount : Option Int
  recurring : Option Recurring
deriving Repr, DecidableEq

/-- One element of `subscription.items.data`. -/
structure SubItem where
  price : Option Price
deriving Repr, DecidableEq

/-- `Stripe.Subscription` as read by `analyzeSubscriptions`. -/
structure Subscription where
  id : String
  status : String
  current_period_end : Int
  items : List SubItem
deriving Repr, DecidableEq

/-- `Stripe.Invoice`: fetched but never read by the calculations module. -/
structure Invoice where
  id : String
deriving Repr, DecidableEq

/-- `StripeCustomerData` from `src/types.ts`: the bundle of raw records the
collector hands to the aggregator (and the value stored in the cache). -/
structure StripeCustomerData where
  customer : Customer
  charges : List Charge
  paymentIntents : List PaymentIntent
  subscriptions : List Subscription
  invoices : List Invoice
deriving Repr, DecidableEq

/-- JavaScript truthiness of a nullable string (`null`/`undefined` and the
empty string are falsy). -/
def strTruthy : Option String → Bool
  | none => false
  | some s => s != ""

/-- The `breakdown` record of `lifetimeValue` (display units, i.e. minor
units divided by 100). -/
structure LTVBreakdown where
  oneTime : ℚ
  subscription : ℚ
  refunded : ℚ
deriving Repr, DecidableEq

/-- The `lifetimeValue` component of `CustomerInsights`. -/
structure LifetimeValue where
  total : ℚ
  currency : String
  breakdown : LTVBreakdown
deriving Repr, DecidableEq

/-- `successfulCharges[0]?.currency || 'usd'` (calculations.ts line 53):
the currency of the first successful charge, with the JavaScript `||`
default applying when there is no such charge or its currency is the empty
string. -/
def currencyOf (successfulCharges : List Charge) : String :=
  match successfulCharges.head? with
  | some c => if c.currency = "" then "usd" else c.currency
  | none => "usd"

/-- `calculateLifetimeValue` (calculations.ts lines 45-77): filter the
succeeded charges, split their amounts by presence of an `invoice` link,
subtract all refunded amounts, and convert the integer minor-unit sums to
display units at the boundary. -/
def calculateLifetimeValue (charges : List Charge) (subscriptions : List Subscription) :
    LifetimeValue :=
  let successfulCharges := charges.filter fun c => c.status = "succeeded"
  let currency := currencyOf successfulCharges
  let oneTimeTotal :=
    ((successfulCharges.filter fun c => !(strTruthy c.invoice)).map fun c => c.amount).sum
  let subscriptionTotal :=
    ((successfulCharges.filter fun c => strTruthy c.invoice).map fun c => c.amount).sum
  let refundedTotal := (charges.map fun c => c.amount_refunded).sum
  let total := oneTimeTotal + subscriptionTotal - refundedTotal
  { total := (total : ℚ) / 100
    currency := currency
    breakdown :=
      { oneTime := (oneTimeTotal : ℚ) / 100
        subscription := (subscriptionTotal : ℚ) / 100
        refunded := (refundedTotal : ℚ) / 100 } }

/-- The `paymentPattern` component of `CustomerInsights`. -/
structure PaymentPattern where
  successRate : ℚ
  totalPayments : ℕ
  successfulPayments : ℕ
  failedPayments : ℕ
  averagePaymentAmount : ℚ
  preferredPaymentMethod : Option String
deriving Repr, DecidableEq

/-- Insertion-ordered counting map, modelling the `Map<string, number>` of
payment-method counts (JavaScript `Map` iterates in insertion order). -/
def bumpCount : List (String × ℕ) → String → List (String × ℕ)
  | [], k => [(k, 1)]
  | (a, n) :: rest, k =>
      if a = k then (a, n + 1) :: rest else (a, n) :: bumpCount rest k

/-- The `forEach` maximum scan of calculations.ts lines 111-118: keep the
first method (in insertion order) whose count is strictly greater than the
running maximum, starting from `(null, 0)`. -/
def maxCountMethod (counts : List (String × ℕ)) : Option String :=
  (counts.foldl
    (fun acc p => if p.2 > acc.2 then (some p.1, p.2) else acc)
    ((none : Option String), 0)).1

/-- `analyzePaymentPattern` (calculations.ts lines 86-128). -/
def analyzePaymentPattern (charges : List Charge) (paymentIntents : List PaymentIntent) :
    PaymentPattern :=
  let successfulPayments := (charges.filter fun c => c.status = "succeeded").length
  let failedPayments := (charges.filter fun c => c.status = "failed").length
  let totalPayments := charges.length
  let successRate : ℚ :=
    if totalPayments > 0 then ((successfulPayments : ℚ) / totalPayments) * 100 else 0
  let averagePaymentAmount : ℚ :=
    if totalPayments > 0
    then (((charges.map fun c => c.amount).sum : ℚ) / totalPayments) / 100
    else 0
  let paymentMethodCounts :=
    charges.foldl
      (fun m c => match c.payment_method_type with
        | some t => bumpCount m t
        | none => m)
      []
  { successRate := successRate
    totalPayments := totalPayments
    successfulPayments := successfulPayments
    failedPayments := failedPayments
    averagePaymentAmount := averagePaymentAmount
    preferredPaymentMethod := maxCountMethod paymentMethodCounts }

/-- One `RiskFactor` from `src/types.ts` (every factor the code emits carries
a numeric `value`, so `value : ℚ`). -/
structure RiskFactor where
  type : String
  severity : String
  description : String
  value : ℚ
deriving Repr, DecidableEq

/-- The `riskAssessment` component of `CustomerInsights`. -/
structure RiskAssessment where
  score : ℕ
  factors : List RiskFactor
  recommendation : String
deriving Repr, DecidableEq

/-- `Number.prototype.toFixed(0)` on the nonnegative rationals the code
formats: round to the nearest integer. -/
def toFixed0 (q : ℚ) : Int := round q

/-- `Number.prototype.toFixed(1)` on the nonnegative rationals the code
formats: one decimal digit. -/
def toFixed1 (q : ℚ) : String :=
  let r : Int := round (q * 10)
  toString (r / 10) ++ "." ++ toString (r % 10).natAbs

/-- The failure-rate input of risk factor 1 (calculations.ts lines 148-150):
`failedCharges / totalCharges`, 0 when there are no charges. -/
def failureRateOf (charges : List Charge) : ℚ :=
  let failedCharges := (charges.filter fun c => c.status = "failed").length
  let totalCharges := charges.length
  if totalCharges > 0 then (failedCharges : ℚ) / totalCharges else 0

/-- Points added by risk factor 1 (calculations.ts lines 152-160):
15 when the failure rate exceeds 0.3, 30 when it exceeds 0.5. -/
def failureContribution (failureRate : ℚ) : ℕ :=
  if failureRate > 3/10 then (if failureRate > 1/2 then 30 else 15) else 0

/-- Points added by risk factor 2 (calculations.ts lines 164-174):
20 when any disputed charge is present, 40 when the dispute rate exceeds
0.01. -/
def chargebackContribution (chargebacks totalCharges : ℕ) : ℕ :=
  if chargebacks > 0
  then (if (chargebacks : ℚ) / totalCharges > 1/100 then 40 else 20)
  else 0

/-- Points added by risk factor 3 (calculations.ts lines 183-191):
15 for an account younger than one month with any charge above the fixed
large-amount threshold. -/
def newCustomerContribution (accountAge : ℚ) (largeCharges : ℕ) : ℕ :=
  if accountAge < 1 ∧ largeCharges > 0 then 15 else 0

/-- Points added by risk factor 4 (calculations.ts lines 194-208):
10 for more than 10 charges spanning fewer than 7 days. -/
def velocityContribution (numCharges : ℕ) (daysBetween : ℚ) : ℕ :=
  if numCharges > 10 ∧ daysBetween < 7 then 10 else 0

/-- The risk score as a function of the four factor magnitudes: the additive
point total of calculations.ts lines 145-208 capped at 100 by line 217. -/
def scoreFromFactors (failureRate : ℚ) (chargebacks totalCharges : ℕ)
    (accountAge : ℚ) (largeCharges numCharges : ℕ) (daysBetween : ℚ) : ℕ :=
  min (failureContribution failureRate
        + chargebackContribution chargebacks totalCharges
        + newCustomerContribution accountAge largeCharges
        + velocityContribution numCharges daysBetween) 100

/-- Account age in months (calculations.ts lines 177-179):
`customer.created ? (Date.now() / 1000 - customer.created) / (86400 * 30) : 0`,
with `now` in epoch milliseconds and the JavaScript truthiness test making a
zero `created` fall to the 0 branch. -/
def accountAgeOf (now : Int) (customer : Customer) : ℚ :=
  match customer.created with
  | some created =>
      if created = 0 then 0 else ((now : ℚ) / 1000 - created) / (86400 * 30)
  | none => 0

/-- Day span between newest (`charges[0]`) and oldest (`charges.length - 1`)
charge (calculations.ts lines 195-197), with the `|| 0` defaults. -/
def daysBetweenOf (charges : List Charge) : ℚ :=
  let firstCharge := ((charges.getLast?).map fun c => c.created).getD 0
  let lastCharge := ((charges.head?).map fun c => c.created).getD 0
  ((lastCharge : ℚ) - firstCharge) / 86400

/-- `assessRisk` (calculations.ts lines 139-221): evaluate the four factors
in order, accumulate their points, cap the score at 100, and bucket the
recommendation from the uncapped total. -/
def assessRisk (now : Int) (customer : Customer) (charges : List Charge)
    (paymentIntents : List PaymentIntent) : RiskAssessment :=
  let totalCharges := charges.length
  let failureRate := failureRateOf charges
  let chargebacks := (charges.filter fun c => c.disputed).length
  let accountAge := accountAgeOf now customer
  let largeCharges := (charges.filter fun c => c.amount > 50000).length
  let daysBetween := daysBetweenOf charges
  let factors : List RiskFactor :=
    (if failureRate > 3/10 then
      [{ type := "payment_failures"
         severity := if failureRate > 1/2 then "high" else "medium"
         description := toString (toFixed0 (failureRate * 100)) ++ "% payment failure rate"
         value := failureRate }]
     else [])
    ++ (if chargebacks > 0 then
      [{ type := "high_chargeback_rate"
         severity := if (chargebacks : ℚ) / totalCharges > 1/100 then "high" else "medium"
         description := toString chargebacks ++ " chargebacks detected"
         value := chargebacks }]
     else [])
    ++ (if accountAge < 1 ∧ largeCharges > 0 then
      [{ type := "new_customer_large_amount"
         severity := "medium"
         description := "New customer (" ++ toFixed1 accountAge ++ " months) with large transactions"
         value := accountAge }]
     else [])
    ++ (if charges.length > 10 ∧ daysBetween < 7 then
      [{ type := "velocity_check"
         severity := "medium"
         description := toString charges.length ++ " transactions in "
           ++ toString (toFixed0 daysBetween) ++ " days"
         value := charges.length }]
     else [])
  let riskScore :=
    failureContribution failureRate
      + chargebackContribution chargebacks totalCharges
      + newCustomerContribution accountAge largeCharges
      + velocityContribution charges.length daysBetween
  { score := min riskScore 100
    factors := factors
    recommendation :=
      if riskScore < 20 then "low_risk"
      else if riskScore < 50 then "medium_risk"
      else "high_risk" }

/-- The `subscriptionHealth` component of `CustomerInsights`
(`nextBillingDate` as the millisecond timestamp behind the ISO string). -/
structure SubscriptionHealth where
  activeSubscriptions : ℕ
  totalSubscriptions : ℕ
  churnedSubscriptions : ℕ
  monthlyRecurringRevenue : ℚ
  nextBillingDate : Option Int
deriving Repr, DecidableEq

/-- Per-subscription monthly amount (calculations.ts lines 240-250):
normalize the first item's unit amount to a monthly figure using its
recurring interval, with the JavaScript `|| 1` and `|| 0` defaults. -/
def monthlyAmountOf (sub : Subscription) : ℚ :=
  let price := sub.items.head?.bind fun it => it.price
  let intervalCount : Int :=
    match (price.bind fun p => p.recurring).map fun r => r.interval_count with
    | some n => if n = 0 then 1 else n
    | none => 1
  let interval := (price.bind fun p => p.recurring).map fun r => r.interval
  let amount : ℚ := (((price.bind fun p => p.unit_amount).getD 0 : Int) : ℚ)
  if interval = some "year" then amount / 12
  else if interval = some "month" then amount / (Int.cast intervalCount : ℚ)
  else amount

/-- `analyzeSubscriptions` (calculations.ts lines 228-266). -/
def analyzeSubscriptions (subscriptions : List Subscription) : SubscriptionHealth :=
  let activeSubs := subscriptions.filter fun s => s.status = "active"
  { activeSubscriptions := activeSubs.length
    totalSubscriptions := subscriptions.length
    churnedSubscriptions :=
      (subscriptions.filter fun s => s.status = "canceled" || s.status = "unpaid").length
    monthlyRecurringRevenue := (activeSubs.map monthlyAmountOf).sum / 100
    nextBillingDate := activeSubs.head?.map fun s => s.current_period_end * 1000 }

/-- The `metadata` component of `CustomerInsights` (dates as the millisecond
timestamps behind the ISO strings). -/
structure InsightMetadata where
  firstPurchaseDate : Option Int
  lastPurchaseDate : Option Int
  daysSinceLastPurchase : Option Int
  totalTransactions : ℕ
deriving Repr, DecidableEq

/-- Stable insertion of a charge into a list ascending by `created`,
modelling the JavaScript stable `sort((a, b) => a.created - b.created)`. -/
def insertByCreated (c : Charge) : List Charge → List Charge
  | [] => [c]
  | d :: ds => if c.created < d.created then c :: d :: ds else d :: insertByCreated c ds

/-- Charges sorted ascending by `created` (calculations.ts line 275). -/
def sortByCreated (charges : List Charge) : List Charge :=
  charges.foldl (fun acc c => insertByCreated c acc) []

/-- `extractMetadata` (calculations.ts lines 271-297), with `now` in epoch
milliseconds. -/
def extractMetadata (now : Int) (charges : List Charge) (customer : Customer) :
    InsightMetadata :=
  let sortedCharges := sortByCreated charges
  let firstCharge := sortedCharges.head?
  let lastCharge := sortedCharges.getLast?
  { firstPurchaseDate := firstCharge.map fun c => c.created * 1000
    lastPurchaseDate := lastCharge.map fun c => c.created * 1000
    daysSinceLastPurchase := lastCharge.map fun c => ⌊((now : ℚ) / 1000 - c.created) / 86400⌋
    totalTransactions := charges.length }

/-- The full `CustomerInsights` output record. -/
structure CustomerInsights where
  customerId : String
  lifetimeValue : LifetimeValue
  paymentPattern : PaymentPattern
  riskAssessment : RiskAssessment
  subscriptionHealth : SubscriptionHealth
  metadata : InsightMetadata
deriving Repr, DecidableEq

/-- `calculateCustomerInsights` (calculations.ts lines 22-33), with the
wall clock (`Date.now()`, epoch milliseconds) as an explicit input. -/
def calculateCustomerInsights (now : Int) (data : StripeCustomerData) : CustomerInsights :=
  { customerId := data.customer.id
    lifetimeValue := calculateLifetimeValue data.charges data.subscriptions
    paymentPattern := analyzePaymentPattern data.charges data.paymentIntents
    riskAssessment := assessRisk now data.customer data.charges data.paymentIntents
    subscriptionHealth := analyzeSubscriptions data.subscriptions
    metadata := extractMetadata now data.charges data.customer }

/-- One cache entry (stripeClient.ts line 264): the fetched data bundle and
the `Date.now()` millisecond timestamp at which it was stored. -/
structure CacheEntry where
  data : StripeCustomerData
  timestamp : Int
deriving Repr, DecidableEq

/-- The in-memory `Map<string, CacheEntry>` of stripeClient.ts line 264,
modelled as a partial map from customer id to entry. -/
def CacheState : Type := String → Option CacheEntry

/-- The empty cache (a fresh `new Map()`). -/
def emptyCache : CacheState := fun _ => none

/-- `CACHE_TTL = 5 * 60 * 1000` milliseconds (stripeClient.ts line 265). -/
def CACHE_TTL : Int := 5 * 60 * 1000

/-- The cache read of `fetchCustomerDataWithCache` (stripeClient.ts lines
272-277): return the stored bundle when `now - cached.timestamp < CACHE_TTL`,
otherwise a miss. -/
def cacheGet (cache : CacheState) (customerId : String) (now : Int) :
    Option StripeCustomerData :=
  match cache customerId with
  | some cached => if now - cached.timestamp < CACHE_TTL then some cached.data else none
  | none => none

/-- The cache write of `fetchCustomerDataWithCache` (stripeClient.ts lines
282-285): `cache.set(customerId, { data, timestamp: Date.now() })`. -/
def cachePut (cache : CacheState) (customerId : String) (data : StripeCustomerData)
    (now : Int) : CacheState :=
  fun k => if k = customerId then some { data := data, timestamp := now } else cache k

/-- `invalidateCache` (stripeClient.ts lines 295-298):
`cache.delete(customerId)`. -/
def invalidateCache (cache : CacheState) (customerId : String) : CacheState :=
  fun k => if k = customerId then none else cache k

/-- A webhook event as consumed by `handleWebhook` (stripeClient.ts lines
361-392): the Stripe event id, the type tag, the id of `event.data.object`,
and that object's nullable `customer` reference. -/
structure Event where
  id : String
  type : String
  objId : String
  objCustomer : Option String
deriving Repr, DecidableEq

/-- The mutable server-side state touched by the webhook endpoint: the
module-level `processedEvents` set (stripeClient.ts line 565) and the cache. -/
structure ServerState where
  processed : List String
  cache : CacheState

/-- `handleWebhook` (stripeClient.ts lines 361-392) reduced to its effect on
the cache: the list of customer ids passed to `invalidateCache`, in call
order.  `customer.created` and unrecognized types invalidate nothing; the
charge and subscription handlers skip invalidation when the object carries no
customer id (stripeClient.ts lines 444-447 etc.). -/
def handleWebhook (event : Event) : List String :=
  if event.type = "customer.created" then []
  else if event.type = "customer.updated" then [event.objId]
  else if event.type = "charge.succeeded"
      ∨ event.type = "charge.failed"
      ∨ event.type = "subscription.created"
      ∨ event.type = "subscription.deleted" then
    match event.objCustomer with
    | some customerId => [customerId]
    | none => []
  else []

/-- `isEventProcessed` (stripeClient.ts lines 567-569). -/
def isEventProcessed (processed : List String) (eventId : String) : Bool :=
  processed.contains eventId

/-- `markEventProcessed` (stripeClient.ts lines 571-576). -/
def markEventProcessed (processed : List String) (eventId : String) : List String :=
  eventId :: processed

/-- Modelled from the spec: the Stripe SDK's `stripe.webhooks.constructEvent`
(called by `verifyWebhookSignature`, stripeClient.ts lines 343-354) is not
part of this repository.  Per the spec, the notification is signed with the
externally supplied secret; we model the signing function as an injective
encoding of the secret and the payload fields. -/
def mkSignature (secret : String) (e : Event) : String :=
  secret ++ "." ++ e.id ++ "." ++ e.type ++ "." ++ e.objId ++ "."
    ++ (match e.objCustomer with | some c => c | none => "")

/-- Modelled from the spec: `verifyWebhookSignature` (stripeClient.ts lines
343-354) returns the parsed event when the signature matches the payload
signed with the secret, and fails otherwise. -/
def verifyWebhookSignature (body : Event) (signature secret : String) : Option Event :=
  if signature = mkSignature secret body then some body else none

/-- The outcome of one delivery to the webhook endpoint: the HTTP status
returned, the server state afterwards, and the `invalidateCache` calls
performed during the delivery. -/
structure WebhookResult where
  status : ℕ
  state : ServerState
  invalidations : List String

/-- `createWebhookEndpoint` (stripeClient.ts lines 583-618): verify the
signature (mismatch returns 400 before any dispatch), skip duplicates with a
200 acknowledgment, otherwise dispatch `handleWebhook`, mark the event id
processed and acknowledge with 200.  The 500 branch for handler failures is
unreachable here because the modelled handlers are total. -/
def webhookEndpoint (secret : String) (st : ServerState) (body : Event)
    (signature : String) : WebhookResult :=
  match verifyWebhookSignature body signature secret with
  | none => { status := 400, state := st, invalidations := [] }
  | some event =>
    if isEventProcessed st.processed event.id then
      { status := 200, state := st, invalidations := [] }
    else
      let invalidations := handleWebhook event
      { status := 200
        state :=
          { processed := markEventProcessed st.processed event.id
            cache := invalidations.foldl invalidateCache st.cache }
        invalidations := invalidations }

/-! Concrete sample records used by witnesses and counterexamples. -/

/-- Scenario-A charge of 1000 minor units with a 500-unit refund. -/
def chargeA : Charge := ⟨"ch_1", 1000, "usd", "succeeded", 500, false, none, 300, none⟩

/-- Scenario-A charge of 2000 minor units, unrefunded. -/
def chargeB : Charge := ⟨"ch_2", 2000, "usd", "succeeded", 0, false, none, 200, none⟩

/-- Scenario-A charge of 3000 minor units, unrefunded. -/
def chargeC : Charge := ⟨"ch_3", 3000, "usd", "succeeded", 0, false, none, 100, none⟩

/-- A sample customer. -/
def sampleCustomer : Customer := ⟨"cus_1", some 1600000000⟩

/-- A sample fetched-data bundle (what the cache stores). -/
def sampleData : StripeCustomerData := ⟨sampleCustomer, [], [], [], []⟩

/-! Helper lemmas. -/

/-- Splitting a mapped sum along a Boolean predicate: the amounts of the
charges failing `p` plus those satisfying `p` add up to the whole sum. -/
lemma sum_map_filter_not_add_sum_map_filter (l : List Charge) (p : Charge → Bool)
    (g : Charge → Int) :
    ((l.filter fun c => !(p c)).map g).sum + ((l.filter p).map g).sum
      = (l.map g).sum := by
  induction l with
  | nil => simp
  | cons c t ih =>
      cases hc : p c <;> simp [List.filter_cons, hc] <;> omega

/-- C2: for every sequence of payment records the lifetime value satisfies
`total = oneTime + subscription - refunded` exactly (all four figures are the
integer minor-unit sums divided by 100, modelled as exact rationals). -/
theorem ltv_total_eq_breakdown (charges : List Charge) (subs : List Subscription) :
    (calculateLifetimeValue charges subs).total
      = (calculateLifetimeValue charges subs).breakdown.oneTime
        + (calculateLifetimeValue charges subs).breakdown.subscription
        - (calculateLifetimeValue charges subs).breakdown.refunded := by
  simp only [calculateLifetimeValue]
  push_cast
  ring

/-- C1 counterexample: for the scenario-A entity (succeeded charges of 1000,
2000, 3000 minor units, a 500-unit refund on the first) the code's
`lifetimeValue.total` field is 55, because line 69 of calculations.ts divides
the 5500 minor units by 100; the claimed value 5500 is not the field's
value. -/
theorem scenarioA_total_not_5500 :
    (calculateLifetimeValue [chargeA, chargeB, chargeC] []).total = 55
  ∧ (calculateLifetimeValue [chargeA, chargeB, chargeC] []).total ≠ 5500 := by
  norm_num [calculateLifetimeValue, currencyOf, strTruthy, chargeA, chargeB, chargeC]

/-- C1 (amended): for every entity with exactly three succeeded charges of
1000, 2000 and 3000 minor units, a 500-unit refund on the first and none on
the others, `lifetimeValue.total` is 55 currency units — the 5500 net minor
units divided by 100 at the display boundary. -/
theorem scenarioA_total_eq_55 (c1 c2 c3 : Charge) (subs : List Subscription)
    (h1 : c1.status = "succeeded") (h2 : c2.status = "succeeded")
    (h3 : c3.status = "succeeded")
    (ha1 : c1.amount = 1000) (ha2 : c2.amount = 2000) (ha3 : c3.amount = 3000)
    (hr1 : c1.amount_refunded = 500) (hr2 : c2.amount_refunded = 0)
    (hr3 : c3.amount_refunded = 0) :
    (calculateLifetimeValue [c1, c2, c3] subs).total = 55 := by
  cases ht1 : strTruthy c1.invoice <;> cases ht2 : strTruthy c2.invoice <;>
    cases ht3 : strTruthy c3.invoice <;>
    norm_num [calculateLifetimeValue, h1, h2, h3, ht1, ht2, ht3, ha1, ha2, ha3,
      hr1, hr2, hr3]

/-- C1 witness: the amended theorem applied to the concrete scenario-A
charges. -/
theorem scenarioA_total_eq_55_witness :
    chargeA.status = "succeeded" ∧ chargeB.status = "succeeded"
  ∧ chargeC.status = "succeeded"
  ∧ chargeA.amount = 1000 ∧ chargeB.amount = 2000 ∧ chargeC.amount = 3000
  ∧ chargeA.amount_refunded = 500 ∧ chargeB.amount_refunded = 0
  ∧ chargeC.amount_refunded = 0
  ∧ (calculateLifetimeValue [chargeA, chargeB, chargeC] []).total = 55 :=
  ⟨rfl, rfl, rfl, rfl, rfl, rfl, rfl, rfl, rfl,
    scenarioA_total_eq_55 chargeA chargeB chargeC [] rfl rfl rfl rfl rfl rfl rfl rfl rfl⟩

/-- C9: when no charge has status `succeeded`, line 53's
`successfulCharges[0]?.currency || 'usd'` makes the lifetime value's currency
default to `"usd"`. -/
theorem currency_defaults_usd (charges : List Charge) (subs : List Subscription)
    (h : ∀ c ∈ charges, c.status ≠ "succeeded") :
    (calculateLifetimeValue charges subs).currency = "usd" := by
  have hf : charges.filter (fun c => c.status = "succeeded") = [] := by
    rw [List.filter_eq_nil_iff]
    intro c hc
    simpa using h c hc
  simp [calculateLifetimeValue, currencyOf, hf]

/-- C9 witness: the theorem applied to a list with one failed charge. -/
theorem currency_defaults_usd_witness :
    (∀ c ∈ [({ id := "ch_f", amount := 100, currency := "eur", status := "failed",
               amount_refunded := 0, disputed := false, invoice := none,
               created := 7, payment_method_type := none } : Charge)],
        c.status ≠ "succeeded")
  ∧ (calculateLifetimeValue
      [({ id := "ch_f", amount := 100, currency := "eur", status := "failed",
          amount_refunded := 0, disputed := false, invoice := none,
          created := 7, payment_method_type := none } : Charge)] []).currency = "usd" :=
  ⟨by decide, currency_defaults_usd _ [] (by decide)⟩

/-- An input bundle with no records of any kind. -/
def emptyBundle (customer : Customer) : StripeCustomerData :=
  { customer := customer, charges := [], paymentIntents := [],
    subscriptions := [], invoices := [] }

/-- C7: on an entity with zero records the aggregator returns a zeroed-out
bundle — lifetime value 0, success rate 0, risk score 0 with no factors,
`low_risk` recommendation and null first/last purchase dates — for every
customer profile and every wall-clock time. -/
theorem empty_inputs_zeroed (now : Int) (customer : Customer) :
    (calculateCustomerInsights now (emptyBundle customer)).lifetimeValue.total = 0
  ∧ (calculateCustomerInsights now (emptyBundle customer)).paymentPattern.successRate = 0
  ∧ (calculateCustomerInsights now (emptyBundle customer)).riskAssessment.score = 0
  ∧ (calculateCustomerInsights now (emptyBundle customer)).riskAssessment.factors = []
  ∧ (calculateCustomerInsights now (emptyBundle customer)).riskAssessment.recommendation
      = "low_risk"
  ∧ (calculateCustomerInsights now (emptyBundle customer)).metadata.firstPurchaseDate = none
  ∧ (calculateCustomerInsights now (emptyBundle customer)).metadata.lastPurchaseDate = none := by
  refine ⟨?_, ?_, ?_, ?_, ?_, ?_, ?_⟩ <;>
    norm_num [calculateCustomerInsights, emptyBundle, calculateLifetimeValue,
      analyzePaymentPattern, assessRisk, failureRateOf, failureContribution,
      chargebackContribution, newCustomerContribution, velocityContribution,
      extractMetadata, sortByCreated, currencyOf]

/-- Factor-1 points never decrease as the failure rate grows. -/
lemma failureContribution_mono {a b : ℚ} (h : a ≤ b) :
    failureContribution a ≤ failureContribution b := by
  unfold failureContribution
  split_ifs <;> first | omega | linarith

/-- Factor-2 points never decrease as the dispute count grows, for a fixed
total charge count. -/
lemma chargebackContribution_mono (tc : ℕ) {a b : ℕ} (h : a ≤ b) :
    chargebackContribution a tc ≤ chargebackContribution b tc := by
  unfold chargebackContribution
  have hdiv : (a : ℚ) / tc ≤ (b : ℚ) / tc :=
    div_le_div_of_nonneg_right (by exact_mod_cast h) (by positivity)
  split_ifs <;> first | omega | linarith

/-- Factor-4 points never decrease as the transaction count grows, for a
fixed day span. -/
lemma velocityContribution_mono (d : ℚ) {a b : ℕ} (h : a ≤ b) :
    velocityContribution a d ≤ velocityContribution b d := by
  unfold velocityContribution
  split_ifs with h1 h2 <;> try omega
  exact absurd ⟨by omega, h1.2⟩ h2

/-- C3: the risk score is always within [0,100], it is exactly
`scoreFromFactors` applied to the derived factor magnitudes, and
`scoreFromFactors` is monotonically non-decreasing in the failure rate, the
dispute count and the velocity (transaction) count, holding everything else
fixed. -/
theorem risk_score_bounds_and_monotone :
    (∀ now customer charges paymentIntents,
        (assessRisk now customer charges paymentIntents).score ≤ 100)
  ∧ (∀ now customer charges paymentIntents,
        (assessRisk now customer charges paymentIntents).score
          = scoreFromFactors (failureRateOf charges)
              ((charges.filter fun c => c.disputed).length) charges.length
              (accountAgeOf now customer)
              ((charges.filter fun c => c.amount > 50000).length)
              charges.length (daysBetweenOf charges))
  ∧ (∀ (fr fr' : ℚ) (cb tc : ℕ) (age : ℚ) (lg n : ℕ) (d : ℚ), fr ≤ fr' →
        scoreFromFactors fr cb tc age lg n d ≤ scoreFromFactors fr' cb tc age lg n d)
  ∧ (∀ (fr : ℚ) (cb cb' tc : ℕ) (age : ℚ) (lg n : ℕ) (d : ℚ), cb ≤ cb' →
        scoreFromFactors fr cb tc age lg n d ≤ scoreFromFactors fr cb' tc age lg n d)
  ∧ (∀ (fr : ℚ) (cb tc : ℕ) (age : ℚ) (lg n n' : ℕ) (d : ℚ), n ≤ n' →
        scoreFromFactors fr cb tc age lg n d ≤ scoreFromFactors fr cb tc age lg n' d) := by
  refine ⟨?_, ?_, ?_, ?_, ?_⟩
  · intro now customer charges paymentIntents
    exact min_le_right _ _
  · intro now customer charges paymentIntents
    rfl
  · intro fr fr' cb tc age lg n d h
    exact min_le_min (by
      have := failureContribution_mono h
      omega) le_rfl
  · intro fr cb cb' tc age lg n d h
    exact min_le_min (by
      have := chargebackContribution_mono tc h
      omega) le_rfl
  · intro fr cb tc age lg n n' d h
    exact min_le_min (by
      have := velocityContribution_mono d h
      omega) le_rfl

/-- C3 witness: the bound and each monotonicity statement applied at
concrete factor magnitudes. -/
theorem risk_score_bounds_and_monotone_witness :
    (assessRisk 1700000000000 sampleCustomer [] []).score ≤ 100
  ∧ ((1 : ℚ)/4 ≤ 3/4
      ∧ scoreFromFactors (1/4) 0 0 0 0 0 0 ≤ scoreFromFactors (3/4) 0 0 0 0 0 0)
  ∧ ((1 : ℕ) ≤ 3
      ∧ scoreFromFactors 0 1 4 0 0 0 0 ≤ scoreFromFactors 0 3 4 0 0 0 0)
  ∧ ((5 : ℕ) ≤ 12
      ∧ scoreFromFactors 0 0 0 0 0 5 0 ≤ scoreFromFactors 0 0 0 0 0 12 0) :=
  ⟨risk_score_bounds_and_monotone.1 1700000000000 sampleCustomer [] [],
   ⟨by norm_num,
    risk_score_bounds_and_monotone.2.2.1 (1/4) (3/4) 0 0 0 0 0 0 (by norm_num)⟩,
   ⟨by norm_num,
    risk_score_bounds_and_monotone.2.2.2.1 0 1 3 4 0 0 0 0 (by norm_num)⟩,
   ⟨by norm_num,
    risk_score_bounds_and_monotone.2.2.2.2 0 0 0 0 0 5 12 0 (by norm_num)⟩⟩

/-- Factor 1 adds at most 30 points. -/
lemma failureContribution_le (fr : ℚ) : failureContribution fr ≤ 30 := by
  unfold failureContribution
  split_ifs <;> omega

/-- Factor 2 adds at most 40 points. -/
lemma chargebackContribution_le (cb tc : ℕ) : chargebackContribution cb tc ≤ 40 := by
  unfold chargebackContribution
  split_ifs <;> omega

/-- Factor 3 adds at most 15 points. -/
lemma newCustomerContribution_le (age : ℚ) (lg : ℕ) :
    newCustomerContribution age lg ≤ 15 := by
  unfold newCustomerContribution
  split_ifs <;> omega

/-- Factor 4 adds at most 10 points. -/
lemma velocityContribution_le (n : ℕ) (d : ℚ) : velocityContribution n d ≤ 10 := by
  unfold velocityContribution
  split_ifs <;> omega

/-- C10: the risk score never exceeds 95 (the factor maxima 30, 40, 15 and
10 sum to 95), so the `min(riskScore, 100)` cap of calculations.ts line 217
is never the binding bound: `scoreFromFactors` always equals the uncapped
sum of the four contributions. -/
theorem risk_score_le_95 :
    (∀ now customer charges paymentIntents,
        (assessRisk now customer charges paymentIntents).score ≤ 95)
  ∧ (∀ (fr : ℚ) (cb tc : ℕ) (age : ℚ) (lg n : ℕ) (d : ℚ),
        scoreFromFactors fr cb tc age lg n d
          = failureContribution fr + chargebackContribution cb tc
            + newCustomerContribution age lg + velocityContribution n d) := by
  have hsum : ∀ (fr : ℚ) (cb tc : ℕ) (age : ℚ) (lg n : ℕ) (d : ℚ),
      failureContribution fr + chargebackContribution cb tc
        + newCustomerContribution age lg + velocityContribution n d ≤ 95 := by
    intro fr cb tc age lg n d
    have h1 := failureContribution_le fr
    have h2 := chargebackContribution_le cb tc
    have h3 := newCustomerContribution_le age lg
    have h4 := velocityContribution_le n d
    omega
  constructor
  · intro now customer charges paymentIntents
    have := hsum (failureRateOf charges)
      ((charges.filter fun c => c.disputed).length) charges.length
      (accountAgeOf now customer)
      ((charges.filter fun c => c.amount > 50000).length)
      charges.length (daysBetweenOf charges)
    calc (assessRisk now customer charges paymentIntents).score
        ≤ _ := min_le_left _ _
      _ ≤ 95 := this
  · intro fr cb tc age lg n d
    exact min_eq_left (le_trans (hsum fr cb tc age lg n d) (by omega))

/-- C4: a get within TTL of a put for the same id returns exactly the stored
bundle; a get after invalidate is a miss; a get at least TTL after the last
put is a miss even without invalidation. -/
theorem cache_get_put_invalidate_ttl (cache : CacheState) (customerId : String)
    (data : StripeCustomerData) (tPut tGet tAny : Int) :
    (tGet - tPut < CACHE_TTL →
        cacheGet (cachePut cache customerId data tPut) customerId tGet = some data)
  ∧ cacheGet (invalidateCache cache customerId) customerId tAny = none
  ∧ (CACHE_TTL ≤ tGet - tPut →
        cacheGet (cachePut cache customerId data tPut) customerId tGet = none) := by
  refine ⟨fun h => ?_, ?_, fun h => ?_⟩
  · simp [cacheGet, cachePut, h]
  · simp [cacheGet, invalidateCache]
  · simp [cacheGet, cachePut, not_lt.mpr h]

/-- C4 witness: the three cache laws at a concrete state, id, bundle and
times (TTL is 300000 ms). -/
theorem cache_get_put_invalidate_ttl_witness :
    ((1 : Int) - 0 < CACHE_TTL
      ∧ cacheGet (cachePut emptyCache "cus_1" sampleData 0) "cus_1" 1 = some sampleData)
  ∧ cacheGet (invalidateCache (cachePut emptyCache "cus_1" sampleData 0) "cus_1")
      "cus_1" 1 = none
  ∧ (CACHE_TTL ≤ (300000 : Int) - 0
      ∧ cacheGet (cachePut emptyCache "cus_1" sampleData 0) "cus_1" 300000 = none) :=
  ⟨⟨by decide,
    (cache_get_put_invalidate_ttl emptyCache "cus_1" sampleData 0 1 1).1 (by decide)⟩,
   (cache_get_put_invalidate_ttl (cachePut emptyCache "cus_1" sampleData 0) "cus_1"
      sampleData 0 1 1).2.1,
   ⟨by decide,
    (cache_get_put_invalidate_ttl emptyCache "cus_1" sampleData 0 300000 1).2.2
      (by decide)⟩⟩

/-- C6: a delivery whose signature does not verify is answered with 400, the
server state (processed-set and cache) is untouched, and no invalidation is
performed — dispatch never happens. -/
theorem webhook_bad_signature_rejected (secret : String) (st : ServerState)
    (body : Event) (signature : String) (h : signature ≠ mkSignature secret body) :
    (webhookEndpoint secret st body signature).status = 400
  ∧ (webhookEndpoint secret st body signature).state = st
  ∧ (webhookEndpoint secret st body signature).invalidations = [] := by
  unfold webhookEndpoint verifyWebhookSignature
  rw [if_neg h]
  exact ⟨rfl, rfl, rfl⟩

/-- A sample `charge.succeeded` notification carrying a customer id. -/
def chargeEvent : Event := ⟨"evt_charge", "charge.succeeded", "ch_9", some "cus_9"⟩

/-- C6 witness: a concrete tampered signature is rejected with 400 and no
state change. -/
theorem webhook_bad_signature_rejected_witness :
    ("bad_signature" ≠ mkSignature "whsec_test" chargeEvent)
  ∧ (webhookEndpoint "whsec_test" { processed := [], cache := emptyCache } chargeEvent
      "bad_signature").status = 400
  ∧ (webhookEndpoint "whsec_test" { processed := [], cache := emptyCache } chargeEvent
      "bad_signature").state = { processed := [], cache := emptyCache }
  ∧ (webhookEndpoint "whsec_test" { processed := [], cache := emptyCache } chargeEvent
      "bad_signature").invalidations = [] :=
  ⟨by decide,
   (webhook_bad_signature_rejected "whsec_test" ⟨[], emptyCache⟩ chargeEvent
      "bad_signature" (by decide)).1,
   (webhook_bad_signature_rejected "whsec_test" ⟨[], emptyCache⟩ chargeEvent
      "bad_signature" (by decide)).2.1,
   (webhook_bad_signature_rejected "whsec_test" ⟨[], emptyCache⟩ chargeEvent
      "bad_signature" (by decide)).2.2⟩

/-- A validly deliverable `customer.created` notification. -/
def createdEvent : Event := ⟨"evt_created", "customer.created", "cus_1", none⟩

/-- C5 counterexample: a validly signed `customer.created` notification
delivered twice with the same delivery identifier is acknowledged 200 both
times but performs zero cache invalidations, not exactly one — the
`customer.created` handler never invalidates (stripeClient.ts lines
402-411). -/
theorem webhook_duplicate_not_one_invalidation :
    (webhookEndpoint "whsec_test" { processed := [], cache := emptyCache } createdEvent
        (mkSignature "whsec_test" createdEvent)).status = 200
  ∧ (webhookEndpoint "whsec_test"
        (webhookEndpoint "whsec_test" { processed := [], cache := emptyCache }
          createdEvent (mkSignature "whsec_test" createdEvent)).state
        createdEvent (mkSignature "whsec_test" createdEvent)).status = 200
  ∧ ((webhookEndpoint "whsec_test" { processed := [], cache := emptyCache } createdEvent
        (mkSignature "whsec_test" createdEvent)).invalidations
      ++ (webhookEndpoint "whsec_test"
            (webhookEndpoint "whsec_test" { processed := [], cache := emptyCache }
              createdEvent (mkSignature "whsec_test" createdEvent)).state
            createdEvent (mkSignature "whsec_test" createdEvent)).invalidations).length
      ≠ 1 := by
  refine ⟨?_, ?_, ?_⟩ <;> decide

/-- C5 (amended): for every validly signed notification delivered twice with
the same fresh delivery identifier, both deliveries are acknowledged 200, the
second performs no cache invalidation, and the invalidations across the two
deliveries are exactly those of a single processing of the event — in
particular exactly one invalidation (of the affected entity) for a
`charge.succeeded` event carrying a customer id, and zero for types such as
`customer.created`. -/
theorem webhook_duplicate_idempotent (secret : String) (st : ServerState) (e : Event)
    (sig : String) (hsig : sig = mkSignature secret e)
    (hfresh : isEventProcessed st.processed e.id = false) :
    (webhookEndpoint secret st e sig).status = 200
  ∧ (webhookEndpoint secret (webhookEndpoint secret st e sig).state e sig).status = 200
  ∧ (webhookEndpoint secret (webhookEndpoint secret st e sig).state e sig).invalidations
      = []
  ∧ (webhookEndpoint secret st e sig).invalidations
      ++ (webhookEndpoint secret (webhookEndpoint secret st e sig).state e sig).invalidations
      = handleWebhook e
  ∧ (∀ cid, e.objCustomer = some cid → e.type = "charge.succeeded" →
      (webhookEndpoint secret st e sig).invalidations
        ++ (webhookEndpoint secret (webhookEndpoint secret st e sig).state e sig).invalidations
        = [cid]) := by
  subst hsig
  have hfirst : webhookEndpoint secret st e (mkSignature secret e)
      = { status := 200
          state :=
            { processed := markEventProcessed st.processed e.id
              cache := (handleWebhook e).foldl invalidateCache st.cache }
          invalidations := handleWebhook e } := by
    unfold webhookEndpoint verifyWebhookSignature
    rw [if_pos rfl]
    simp [hfresh]
  have hdup : isEventProcessed (markEventProcessed st.processed e.id) e.id = true := by
    simp [isEventProcessed, markEventProcessed]
  have hsecond : webhookEndpoint secret (webhookEndpoint secret st e
        (mkSignature secret e)).state e (mkSignature secret e)
      = { status := 200
          state := (webhookEndpoint secret st e (mkSignature secret e)).state
          invalidations := [] } := by
    rw [hfirst]
    unfold webhookEndpoint verifyWebhookSignature
    rw [if_pos rfl]
    simp [hdup]
  refine ⟨by rw [hfirst], by rw [hsecond], by rw [hsecond], ?_, ?_⟩
  · rw [hsecond, hfirst]
    simp
  · intro cid hcust htype
    rw [hsecond, hfirst]
    simp [handleWebhook, htype, hcust]

/-- C5 witness: the amended theorem applied to a concrete `charge.succeeded`
notification delivered twice against a fresh state: both 200, one
invalidation in total, of the affected customer. -/
theorem webhook_duplicate_idempotent_witness :
    (mkSignature "whsec_w" chargeEvent = mkSignature "whsec_w" chargeEvent)
  ∧ isEventProcessed ([] : List String) chargeEvent.id = false
  ∧ (webhookEndpoint "whsec_w" { processed := [], cache := emptyCache } chargeEvent
        (mkSignature "whsec_w" chargeEvent)).status = 200
  ∧ (webhookEndpoint "whsec_w"
        (webhookEndpoint "whsec_w" { processed := [], cache := emptyCache } chargeEvent
          (mkSignature "whsec_w" chargeEvent)).state chargeEvent
        (mkSignature "whsec_w" chargeEvent)).status = 200
  ∧ (webhookEndpoint "whsec_w" { processed := [], cache := emptyCache } chargeEvent
        (mkSignature "whsec_w" chargeEvent)).invalidations
      ++ (webhookEndpoint "whsec_w"
            (webhookEndpoint "whsec_w" { processed := [], cache := emptyCache }
              chargeEvent (mkSignature "whsec_w" chargeEvent)).state chargeEvent
            (mkSignature "whsec_w" chargeEvent)).invalidations
      = ["cus_9"] :=
  ⟨rfl, by decide,
   (webhook_duplicate_idempotent "whsec_w" ⟨[], emptyCache⟩ chargeEvent
      (mkSignature "whsec_w" chargeEvent) rfl (by decide)).1,
   (webhook_duplicate_idempotent "whsec_w" ⟨[], emptyCache⟩ chargeEvent
      (mkSignature "whsec_w" chargeEvent) rfl (by decide)).2.1,
   (webhook_duplicate_idempotent "whsec_w" ⟨[], emptyCache⟩ chargeEvent
      (mkSignature "whsec_w" chargeEvent) rfl (by decide)).2.2.2.2 "cus_9" rfl rfl⟩

/-- C8: for every entity with exactly 4 payment records of which 1 succeeded
and 3 failed, the success rate is 25, the failure rate is 3/4, factor 1
contributes 30 points to the risk score, and the first reported risk factor
is `payment_failures` with severity `high`. -/
theorem scenarioB_success_rate_and_risk (now : Int) (customer : Customer)
    (charges : List Charge) (paymentIntents : List PaymentIntent)
    (hlen : charges.length = 4)
    (hs : (charges.filter fun c => c.status = "succeeded").length = 1)
    (hf : (charges.filter fun c => c.status = "failed").length = 3) :
    (analyzePaymentPattern charges paymentIntents).successRate = 25
  ∧ failureRateOf charges = 3/4
  ∧ failureContribution (failureRateOf charges) = 30
  ∧ ∃ f, (assessRisk now customer charges paymentIntents).factors.head? = some f
      ∧ RiskFactor.type f = "payment_failures" ∧ f.severity = "high" := by
  have hfr : failureRateOf charges = 3/4 := by
    simp [failureRateOf, hlen, hf]
  refine ⟨?_, hfr, ?_, ?_⟩
  · simp [analyzePaymentPattern, hlen, hs]
    norm_num
  · rw [hfr]
    unfold failureContribution
    norm_num
  · refine ⟨{ type := "payment_failures", severity := "high",
              description := toString (toFixed0 ((3/4 : ℚ) * 100))
                ++ "% payment failure rate",
              value := (3/4 : ℚ) }, ?_, rfl, rfl⟩
    norm_num [assessRisk, hfr]

/-- C8 witness: the theorem applied to four concrete charges, one succeeded
and three failed. -/
theorem scenarioB_success_rate_and_risk_witness :
    ([chargeA, ⟨"ch_f1", 100, "usd", "failed", 0, false, none, 4, none⟩,
      ⟨"ch_f2", 100, "usd", "failed", 0, false, none, 5, none⟩,
      ⟨"ch_f3", 100, "usd", "failed", 0, false, none, 6, none⟩] :
        List Charge).length = 4
  ∧ (analyzePaymentPattern
      [chargeA, ⟨"ch_f1", 100, "usd", "failed", 0, false, none, 4, none⟩,
       ⟨"ch_f2", 100, "usd", "failed", 0, false, none, 5, none⟩,
       ⟨"ch_f3", 100, "usd", "failed", 0, false, none, 6, none⟩] []).successRate = 25
  ∧ ∃ f, (assessRisk 1700000000000 sampleCustomer
        [chargeA, ⟨"ch_f1", 100, "usd", "failed", 0, false, none, 4, none⟩,
         ⟨"ch_f2", 100, "usd", "failed", 0, false, none, 5, none⟩,
         ⟨"ch_f3", 100, "usd", "failed", 0, false, none, 6, none⟩] []).factors.head?
        = some f
      ∧ RiskFactor.type f = "payment_failures" ∧ f.severity = "high" :=
  ⟨by decide,
   (scenarioB_success_rate_and_risk 1700000000000 sampleCustomer _ []
      (by decide) (by decide) (by decide)).1,
   (scenarioB_success_rate_and_risk 1700000000000 sampleCustomer _ []
      (by decide) (by decide) (by decide)).2.2.2⟩

end StripeInsights
